import Mathlib

/-
Verification of the pokemon-stock-monitor repository against its
specification.  The embedding follows src/stock_monitor.py.

Modelling conventions
  * HTML markup is modelled as the list of <button> elements of the page in
    document order.  Each button carries its raw class attribute string (if
    any), its type attribute (if any), its disabled attribute value (if
    present; the html.parser tree builder used by BeautifulSoup stores a
    valueless attribute such as `<button disabled>` as the empty string),
    and its text content.  Buttons are modelled as containing exactly one
    text node, so `get_text()` and the `.string` property both yield that
    text.
  * `soup.find(...)` returns the FIRST element of the document satisfying
    all filters; this is modelled with `List.find?`.
  * A class filter given as a lambda is tried by BeautifulSoup on every
    individual class token and then on the space-joined class string; for
    the substring tests used here this is equivalent to a substring test on
    the raw class attribute string, which is how it is modelled.
  * An attribute filter `{'disabled': ''}` matches the elements whose
    disabled attribute value is the empty string, and also the elements
    lacking the attribute entirely: SoupStrainer._matches matches an absent
    attribute (None) against any falsy filter value such as ''.  Only a
    non-empty attribute value fails the filter.
-/

namespace StockMonitor

/-- Whitespace characters recognised by Python `str.strip()` / `str.split()`. -/
def isPySpace (c : Char) : Bool :=
  c == ' ' || c == '\t' || c == '\n' || c == '\r' || c == '\x0b' || c == '\x0c'

/-- Python `str.strip()`: drop leading and trailing whitespace. -/
def pyStrip (s : String) : String :=
  ⟨((s.toList.dropWhile isPySpace).reverse.dropWhile isPySpace).reverse⟩

/-- Character-list version of the Python `in` substring test (needle, haystack). -/
def subOf (needle : List Char) : List Char → Bool
  | [] => needle.isEmpty
  | c :: rest => needle.isPrefixOf (c :: rest) || subOf needle rest

/-- Python `tok in s`: `tok` occurs as a contiguous substring of `s`. -/
def hasSub (s tok : String) : Bool :=
  subOf tok.toList s.toList

/-- Split a string at whitespace, Python `str.split()` with no argument:
the list of maximal non-whitespace runs.  Used only to state claims that
speak of class *tokens*. -/
def wsTokensAux : List Char → List Char → List String
  | [], acc => if acc.isEmpty then [] else [⟨acc.reverse⟩]
  | c :: rest, acc =>
    if isPySpace c then
      if acc.isEmpty then wsTokensAux rest []
      else ⟨acc.reverse⟩ :: wsTokensAux rest []
    else wsTokensAux rest (c :: acc)

/-- The whitespace-separated tokens of a string. -/
def wsTokens (s : String) : List String :=
  wsTokensAux s.toList []

/-- A `<button>` element of the fetched page.  `classAttr` is the raw class
attribute string, `typeAttr` the type attribute, `disabledAttr` the value of
the disabled attribute when present (`some ""` for `disabled` / `disabled=""`),
and `innerText` the text content of the button. -/
structure Button where
  classAttr : Option String
  typeAttr : Option String
  disabledAttr : Option String
  innerText : String
  deriving DecidableEq, Repr

/-- The page markup: its buttons in document order. -/
abbrev Markup := List Button

/-- The class attribute contains `tok` as a whole whitespace-separated token.
Used only in claim statements (the code itself tests substrings). -/
def classHasToken (b : Button) (tok : String) : Bool :=
  match b.classAttr with
  | none => false
  | some s => (wsTokens s).contains tok

/-- The diagnostic reason tags of the classifier, corresponding to the four
`button_status` strings assigned in `check_stock` (lines 44, 58, 64, 67). -/
inductive Reason where
  | inStockPrimary      -- "IN STOCK - 'Add to Cart' button found"
  | outOfStockPrimary   -- "OUT OF STOCK - 'Unavailable' button found"
  | inStockFallback     -- "IN STOCK - Fallback 'Add to Cart' button found"
  | unknown             -- "UNKNOWN STATE - No recognizable button pattern found"
  deriving DecidableEq, Repr

/-- Filter of the primary in-stock search (lines 36-39): class contains both
`add-to-cart-button--PZmQF` and `btn-secondary--mtUol` as substrings, and the
type attribute is exactly `button`. -/
def primaryBtn (b : Button) : Bool :=
  (match b.classAttr with
   | none => false
   | some s => hasSub s "add-to-cart-button--PZmQF" && hasSub s "btn-secondary--mtUol")
  && b.typeAttr == some "button"

/-- `soup.find('button', {'class': lambda ..., 'type': 'button'})` (line 36). -/
def findPrimary (m : Markup) : Option Button :=
  m.find? primaryBtn

/-- The primary branch condition of line 42:
`in_stock_button and in_stock_button.get_text().strip() == 'Add to Cart'`. -/
def primaryMatches (m : Markup) : Bool :=
  match findPrimary m with
  | some b => pyStrip b.innerText == "Add to Cart"
  | none => false

/-- The attribute filter `{'disabled': ''}`: SoupStrainer._matches accepts
an absent attribute (None matched against the falsy filter value '') as
well as an empty attribute value; only a non-empty value is rejected. -/
def matchesEmptyDisabled (d : Option String) : Bool :=
  match d with
  | none => true
  | some s => s == ""

/-- Filter of the out-of-stock class search (lines 48-51): class contains
both `add-to-cart-button--PZmQF` and `disabled--vkECP` as substrings, and
the disabled attribute is absent or has the empty value. -/
def oosClassBtn (b : Button) : Bool :=
  (match b.classAttr with
   | none => false
   | some s => hasSub s "add-to-cart-button--PZmQF" && hasSub s "disabled--vkECP")
  && matchesEmptyDisabled b.disabledAttr

/-- `soup.find('button', {'class': lambda ..., 'disabled': ''})` (line 48). -/
def findOOSClass (m : Markup) : Option Button :=
  m.find? oosClassBtn

/-- Filter of line 54: the disabled attribute is absent or has the empty
value, and the button string is exactly `Unavailable`. -/
def unavailableBtn (b : Button) : Bool :=
  matchesEmptyDisabled b.disabledAttr && b.innerText == "Unavailable"

/-- `soup.find('button', {'disabled': ''}, string='Unavailable')` (line 54). -/
def findUnavailable (m : Markup) : Option Button :=
  m.find? unavailableBtn

/-- Filter of line 61: the button string is exactly `Add to Cart`. -/
def fallbackCartBtn (b : Button) : Bool :=
  b.innerText == "Add to Cart"

/-- `soup.find('button', string='Add to Cart')` (line 61). -/
def findFallbackCart (m : Markup) : Option Button :=
  m.find? fallbackCartBtn

/-- `not fallback_cart_button.get('disabled')` (line 62): `get` yields `None`
when the attribute is absent and its string value otherwise; Python `not`
holds for `None` and for the empty string. -/
def disabledFalsy (b : Button) : Bool :=
  match b.disabledAttr with
  | none => true
  | some s => s == ""

/-- The stock classification of `check_stock` (lines 36-67): the computed
`in_stock` flag together with the reason tag of the `button_status` string. -/
def classify (m : Markup) : Bool × Reason :=
  if primaryMatches m then
    (true, .inStockPrimary)
  else if (findOOSClass m).isSome || (findUnavailable m).isSome then
    (false, .outOfStockPrimary)
  else
    match findFallbackCart m with
    | some b => if disabledFalsy b then (true, .inStockFallback) else (false, .unknown)
    | none => (false, .unknown)

/-- Outcome of parsing the response body with BeautifulSoup (line 32):
either the parsed markup, or a raised parse exception. -/
inductive ParseOutcome where
  | ok (m : Markup)
  | raises
  deriving DecidableEq, Repr

/-- Outcome of `requests.get(self.url, headers=..., timeout=10)` (line 29):
a response with a status code (whose body parses as `p`), a timeout, or a
connection failure.  Timeouts and connection failures raise subclasses of
`requests.RequestException`. -/
inductive FetchOutcome where
  | success (p : ParseOutcome) (status : Nat)
  | timeout
  | connectionError
  deriving DecidableEq, Repr

/-- `response.raise_for_status()` (line 30) raises `requests.HTTPError`
exactly for client-error (4xx) and server-error (5xx) status codes. -/
def raiseForStatus (s : Nat) : Bool :=
  (400 ≤ s && s < 500) || (500 ≤ s && s < 600)

/-- `check_stock` (lines 26-77): on a fetch error (timeout, connection
failure, or a status that `raise_for_status` rejects) the
`requests.RequestException` handler of line 75 returns `(False, None)`;
otherwise the body is parsed and classified and the pair
`(in_stock, response.status_code)` is returned.  A parse exception is NOT
caught by the handler of line 75 and propagates to the caller, modelled by
`Except.error`. -/
def check_stock (f : FetchOutcome) : Except Unit (Bool × Option Nat) :=
  match f with
  | .success p s =>
    if raiseForStatus s then .ok (false, none)
    else
      match p with
      | .ok m => .ok ((classify m).1, some s)
      | .raises => .error ()
  | .timeout => .ok (false, none)
  | .connectionError => .ok (false, none)

/-- True exactly when the fetch raises an exception that the handler of
line 75 catches: timeout, connection failure, or a 4xx/5xx status. -/
def fetchRaised : FetchOutcome → Bool
  | .success _ s => raiseForStatus s
  | .timeout => true
  | .connectionError => true

/-- The HTTP status code carried by the fetch outcome, if any. -/
def statusOf : FetchOutcome → Option Nat
  | .success _ s => some s
  | _ => none

/-- The email configuration dict built by `load_config` (lines 186-193). -/
structure EmailConfig where
  smtp_server : String
  smtp_port : Int
  from_email : String
  password : String
  to_email : String
  enabled : Bool
  deriving DecidableEq, Repr

/-- Outcome of the SMTP session attempted by `send_notification`
(lines 103-107): success, or the various failures (`SMTPAuthenticationError`,
network errors, errors from a malformed configuration such as an invalid
port) — all subclasses of `Exception`, so all caught by line 111. -/
inductive SmtpOutcome where
  | ok
  | authError
  | networkError
  | invalidPort
  | otherError
  deriving DecidableEq, Repr

/-- Observable result of one `send_notification` call: whether the email was
sent, the alert text printed to the console (if any), and whether the call
raised to its caller. -/
structure NotifyResult where
  emailSent : Bool
  consoleMessage : Option String
  raised : Bool
  deriving DecidableEq, Repr

/-- `send_notification` (lines 79-113): with no configuration, or a
configuration whose `enabled` flag is false, the alert is printed to the
console (line 82).  Otherwise the email send is attempted; on success the
email is sent (line 109), and any `Exception` in the send path is caught by
line 111 and the alert is printed to the console instead (line 113).
Nothing is re-raised to the caller. -/
def send_notification (message : String) (cfg : Option EmailConfig)
    (smtp : SmtpOutcome) : NotifyResult :=
  match cfg with
  | none => ⟨false, some message, false⟩
  | some c =>
    if !c.enabled then ⟨false, some message, false⟩
    else
      match smtp with
      | .ok => ⟨true, none, false⟩
      | _ => ⟨false, some message, false⟩

/-- The log record a monitor tick produces, distinguishing the four logging
sites of `monitor` (lines 128, 132, 134, 142). -/
inductive LogEvent where
  | backInStock                 -- line 128: in-stock message, then notify
  | stillOutOfStock (s : Nat)   -- line 132: still out of stock (Status: s)
  | failedCheck                 -- line 134: "Failed to check stock"
  | unexpectedError             -- line 142: "Unexpected error"
  deriving DecidableEq, Repr

/-- State of the polling loop of `monitor` (line 120): still polling, or
done (the loop has executed `break`). -/
inductive LoopState where
  | POLLING
  | DONE
  deriving DecidableEq, Repr

/-- Observable effect of one iteration of the `while True` loop of `monitor`
(lines 120-143): whether `send_notification` was invoked, what was logged,
whether `time.sleep(check_interval)` ran, and the loop state afterwards. -/
structure TickEffect where
  notified : Bool
  log : LogEvent
  slept : Bool
  next : LoopState
  deriving DecidableEq, Repr

/-- The body of one loop iteration of `monitor` (lines 121-143), as a
function of what `check_stock` returned (or raised).  `if status_code:`
(line 125) is Python truthiness: `None` and `0` are falsy.  A raised
exception is caught by the `except Exception` handler of line 141, which
logs an unexpected error and sleeps. -/
def monitorStep (r : Except Unit (Bool × Option Nat)) : TickEffect :=
  match r with
  | .error _ => ⟨false, .unexpectedError, true, .POLLING⟩
  | .ok (inStock, st) =>
    match st with
    | some n =>
      if n != 0 then
        if inStock then ⟨true, .backInStock, false, .DONE⟩
        else ⟨false, .stillOutOfStock n, true, .POLLING⟩
      else ⟨false, .failedCheck, true, .POLLING⟩
    | none => ⟨false, .failedCheck, true, .POLLING⟩

/-- One tick of `monitor`: run `check_stock` and the loop body on it. -/
def monitorTick (f : FetchOutcome) : TickEffect :=
  monitorStep (check_stock f)

/-- A run of the `monitor` loop over a finite schedule of fetch outcomes,
one per tick: the effects of the executed ticks and the loop state when the
schedule is exhausted or the loop breaks.  (Operator interrupts are outside
this model.) -/
def monitorRun : List FetchOutcome → List TickEffect × LoopState
  | [] => ([], .POLLING)
  | f :: rest =>
    let e := monitorTick f
    match e.next with
    | .DONE => ([e], .DONE)
    | .POLLING =>
      let r := monitorRun rest
      (e :: r.1, r.2)

/-- The process environment as read by `load_config` (lines 145-197): the
value of each environment variable the function consults, `none` when the
variable is absent. -/
structure Env where
  product_url : Option String
  check_interval : Option String
  email_notifications : Option String
  smtp_server : Option String
  smtp_port : Option String
  from_email : Option String
  email_password : Option String
  to_email : Option String
  deriving DecidableEq, Repr

/-- Python truthiness of an `os.getenv` result (`not os.getenv(var)`,
line 149): falsy when the variable is absent or its value is empty. -/
def truthyEnv : Option String → Bool
  | none => false
  | some s => s != ""

/-- Accumulate the value of a decimal digit string; `none` on a non-digit
or on the empty string. -/
def digitsVal : List Char → Option Nat
  | [] => none
  | cs =>
    cs.foldl
      (fun acc c =>
        match acc with
        | none => none
        | some n => if c.isDigit then some (n * 10 + (c.toNat - 48)) else none)
      (some 0)

/-- Python `int()` applied to a string: surrounding whitespace is ignored,
an optional sign precedes one or more decimal digits; anything else raises
`ValueError`, modelled as `none`.  (Digit-grouping underscores are not
modelled; no claim depends on them.) -/
def pyParseInt (s : String) : Option Int :=
  let cs := ((s.toList.dropWhile isPySpace).reverse.dropWhile isPySpace).reverse
  match cs with
  | '-' :: rest => (digitsVal rest).map (fun n => -(n : Int))
  | '+' :: rest => (digitsVal rest).map (fun n => (n : Int))
  | rest => (digitsVal rest).map (fun n => (n : Int))

/-- ASCII lowering of one character, as `str.lower()` acts on the ASCII
letters relevant here. -/
def lowerChar (c : Char) : Char :=
  if 65 ≤ c.toNat && c.toNat ≤ 90 then Char.ofNat (c.toNat + 32) else c

/-- Python `str.lower()` restricted to ASCII case mapping. -/
def pyLower (s : String) : String :=
  ⟨s.toList.map lowerChar⟩

/-- Result of `load_config`: the missing-URL branch (lines 151-159) prints
the guidance text and returns the pair `(None, None)`; the normal branch
returns the triple `(url, email_config, check_interval)` (line 197). -/
inductive ConfigResult where
  | missing
  | loaded (url : String) (email_config : Option EmailConfig) (check_interval : Int)
  deriving DecidableEq, Repr

/-- The URL component of what `load_config` returned (`config[0]` in `main`,
line 205). -/
def configUrl : ConfigResult → Option String
  | .missing => none
  | .loaded u _ _ => some u

/-- `load_config` (lines 145-197).  `PRODUCT_URL` is required: when it is
absent or empty the guidance is printed and `(None, None)` returned.
`CHECK_INTERVAL` defaults to `'90'` and falls back to 90 on a `ValueError`.
The email configuration is built only when `EMAIL_NOTIFICATIONS` lowercases
to `'true'`, every email variable is set and non-empty, and `SMTP_PORT`
parses as an integer; otherwise it is `None`. -/
def load_config (e : Env) : ConfigResult :=
  if !truthyEnv e.product_url then .missing
  else
    let url := e.product_url.getD ""
    let ci := (pyParseInt (e.check_interval.getD "90")).getD 90
    let emailEnabled := pyLower (e.email_notifications.getD "true") == "true"
    let ec : Option EmailConfig :=
      if emailEnabled then
        if truthyEnv e.smtp_server && truthyEnv e.smtp_port
            && truthyEnv e.from_email && truthyEnv e.email_password
            && truthyEnv e.to_email then
          match pyParseInt (e.smtp_port.getD "") with
          | some p =>
            some ⟨e.smtp_server.getD "", p, e.from_email.getD "",
                  e.email_password.getD "", e.to_email.getD "", true⟩
          | none => none
        else none
      else none
    .loaded url ec ci

/-- Observable behaviour of `main` (lines 199-226): whether the
missing-configuration guidance was printed (by `load_config`), whether a
`PokemonStockMonitor` instance was constructed, and whether its `monitor`
loop was entered. -/
structure MainResult where
  guidancePrinted : Bool
  monitorConstructed : Bool
  monitorCalled : Bool
  deriving DecidableEq, Repr

/-- `main` (lines 199-226): load the configuration; if its URL component is
`None`, return at once (line 206) — the monitor is neither constructed nor
started.  Otherwise construct the monitor and enter the polling loop. -/
def main (e : Env) : MainResult :=
  match load_config e with
  | .missing => ⟨true, false, false⟩
  | .loaded _ _ _ => ⟨false, true, true⟩

/-- The markup refuting claim C1: two buttons both matching the primary
class/type filter, the first with text `Buy`, the second with text
`Add to Cart`. -/
def c1CexMarkup : Markup :=
  [⟨some "add-to-cart-button--PZmQF btn--ICBoB btn-secondary--mtUol", some "button", none, "Buy"⟩,
   ⟨some "add-to-cart-button--PZmQF btn--ICBoB btn-secondary--mtUol", some "button", none, "Add to Cart"⟩]

/-- Claim C1 is false as stated: this markup contains a button whose class
attribute has both the `add-to-cart-button--PZmQF` and `btn-secondary--mtUol`
tokens, whose type is `button` and whose visible text is exactly
`Add to Cart`, yet the classifier does not return in-stock-primary — `find`
returns the FIRST button matching the class/type filter, here the `Buy`
button, whose text check fails, so the fallback fires instead. -/
theorem claim_C1_counterexample :
    (c1CexMarkup.any fun b =>
      classHasToken b "add-to-cart-button--PZmQF" && classHasToken b "btn-secondary--mtUol"
        && b.typeAttr == some "button" && pyStrip b.innerText == "Add to Cart") = true
    ∧ classify c1CexMarkup ≠ (true, Reason.inStockPrimary)
    ∧ classify c1CexMarkup = (true, Reason.inStockFallback) := by
  decide

/-- Claim C1 (amended): for every markup in which the FIRST button matching
the primary filter (class containing both the `add-to-cart-button--PZmQF`
and `btn-secondary--mtUol` tokens, type `button`) has visible text exactly
`Add to Cart`, the classifier returns in-stock with reason
in-stock-primary. -/
theorem claim_C1 (m : Markup) (b : Button) (hf : findPrimary m = some b)
    (ht : pyStrip b.innerText = "Add to Cart") :
    classify m = (true, Reason.inStockPrimary) := by
  have hp : primaryMatches m = true := by
    simp [primaryMatches, hf, ht]
  simp [classify, hp]

/-- Witness for claim C1 at the single primary in-stock button of the code
comment (line 35). -/
theorem claim_C1_witness :
    classify [(⟨some "add-to-cart-button--PZmQF btn--ICBoB btn-secondary--mtUol",
               some "button", none, "Add to Cart"⟩ : Button)]
      = (true, Reason.inStockPrimary) :=
  claim_C1 _ ⟨some "add-to-cart-button--PZmQF btn--ICBoB btn-secondary--mtUol",
              some "button", none, "Add to Cart"⟩ (by decide) (by decide)

/-- Claim C2: in every run of the monitor loop whose first tick classifies
not-in-stock and whose second tick classifies in-stock, the notifier is
invoked exactly once, on the second tick, and the loop then stops in the
DONE state having executed exactly those two ticks. -/
theorem claim_C2 (f1 f2 : FetchOutcome) (rest : List FetchOutcome) (s1 s2 : Nat)
    (h1 : check_stock f1 = .ok (false, some s1)) (hs1 : s1 ≠ 0)
    (h2 : check_stock f2 = .ok (true, some s2)) (hs2 : s2 ≠ 0) :
    (monitorRun (f1 :: f2 :: rest)).1.map TickEffect.notified = [false, true]
    ∧ (monitorRun (f1 :: f2 :: rest)).2 = LoopState.DONE := by
  have e1 : monitorTick f1 = ⟨false, .stillOutOfStock s1, true, .POLLING⟩ := by
    simp [monitorTick, h1, monitorStep, hs1]
  have e2 : monitorTick f2 = ⟨true, .backInStock, false, .DONE⟩ := by
    simp [monitorTick, h2, monitorStep, hs2]
  simp [monitorRun, e1, e2]

/-- Witness for claim C2: an out-of-stock page then an in-stock page, both
with status 200. -/
theorem claim_C2_witness :
    (monitorRun [.success (.ok []) 200,
      .success (.ok [⟨some "add-to-cart-button--PZmQF btn--ICBoB btn-secondary--mtUol",
                      some "button", none, "Add to Cart"⟩]) 200]).1.map TickEffect.notified
      = [false, true]
    ∧ (monitorRun [.success (.ok []) 200,
        .success (.ok [⟨some "add-to-cart-button--PZmQF btn--ICBoB btn-secondary--mtUol",
                        some "button", none, "Add to Cart"⟩]) 200]).2 = LoopState.DONE :=
  claim_C2 _ _ [] 200 200 rfl (by decide) rfl (by decide)

/-- Claim C3 is false as stated: a 304 response has a non-2xx status, yet
`raise_for_status` raises only for 4xx/5xx codes, so the check is NOT
treated as failed — the tick is logged as still-out-of-stock, not as a
failed check. -/
theorem claim_C3_counterexample :
    check_stock (.success (.ok []) 304) = .ok (false, some 304)
    ∧ monitorTick (.success (.ok []) 304)
        = ⟨false, LogEvent.stillOutOfStock 304, true, LoopState.POLLING⟩
    ∧ (monitorTick (.success (.ok []) 304)).log ≠ LogEvent.failedCheck :=
  ⟨rfl, by decide, by decide⟩

/-- Claim C3 (amended): for every tick whose fetch fails (timeout, 4xx/5xx
status, or connection failure), the exception is caught inside
`check_stock`, which returns `(False, None)`; the loop logs a failed check,
does not invoke the notifier, sleeps, and keeps polling. -/
theorem claim_C3 (f : FetchOutcome) (h : fetchRaised f = true) :
    check_stock f = .ok (false, none)
    ∧ monitorTick f = ⟨false, LogEvent.failedCheck, true, LoopState.POLLING⟩ := by
  cases f with
  | success p s =>
    have hr : raiseForStatus s = true := h
    exact ⟨by simp [check_stock, hr], by simp [monitorTick, check_stock, hr, monitorStep]⟩
  | timeout => exact ⟨rfl, rfl⟩
  | connectionError => exact ⟨rfl, rfl⟩

/-- Witness for claim C3 at a timed-out fetch. -/
theorem claim_C3_witness :
    check_stock FetchOutcome.timeout = .ok (false, none)
    ∧ monitorTick FetchOutcome.timeout
        = ⟨false, LogEvent.failedCheck, true, LoopState.POLLING⟩ :=
  claim_C3 .timeout rfl

/-- The markup refuting claim C4: a single `Add to Cart` button whose
disabled attribute is present with the empty value (as html.parser stores
`<button disabled>` or `<button disabled="">`). -/
def c4CexMarkup : Markup := [⟨none, none, some "", "Add to Cart"⟩]

/-- Claim C4 is false as stated: this markup's only `Add to Cart` button
carries a disabled attribute, and none of the three patterns as the claim
describes them matches (in particular no `Add to Cart` button lacking a
disabled attribute exists), yet the classifier returns in-stock-fallback —
`not button.get('disabled')` is true for the empty attribute value, so the
fallback treats the disabled button as enabled. -/
theorem claim_C4_counterexample :
    primaryMatches c4CexMarkup = false
    ∧ findOOSClass c4CexMarkup = none
    ∧ findUnavailable c4CexMarkup = none
    ∧ (c4CexMarkup.all fun b => !(b.innerText == "Add to Cart") || b.disabledAttr.isSome) = true
    ∧ (c4CexMarkup.any fun b => b.innerText == "Add to Cart") = true
    ∧ classify c4CexMarkup ≠ (false, Reason.unknown)
    ∧ classify c4CexMarkup = (true, Reason.inStockFallback) := by
  decide

/-- Claim C4 (amended): for every markup in which the primary pattern and
both out-of-stock patterns fail and in which the first button with text
exactly `Add to Cart` — if one exists — has a disabled attribute with a
NON-EMPTY value, the classifier returns not-in-stock with reason unknown.
(A disabled attribute with empty value does not block the fallback.) -/
theorem claim_C4 (m : Markup)
    (h1 : primaryMatches m = false)
    (h2 : findOOSClass m = none) (h3 : findUnavailable m = none)
    (h4 : ∀ b, findFallbackCart m = some b → disabledFalsy b = false) :
    classify m = (false, Reason.unknown) := by
  simp only [classify, h1, h2, h3, Bool.false_eq_true, if_false, Option.isSome_none,
    Bool.or_self]
  cases hf : findFallbackCart m with
  | none => rfl
  | some b => simp [h4 b hf]

/-- Witness for claim C4 at an `Add to Cart` button with
`disabled="disabled"`. -/
theorem claim_C4_witness :
    classify [(⟨none, none, some "disabled", "Add to Cart"⟩ : Button)]
      = (false, Reason.unknown) :=
  claim_C4 _ (by decide) (by decide) (by decide)
    (by
      intro b hb
      have he : findFallbackCart [(⟨none, none, some "disabled", "Add to Cart"⟩ : Button)]
          = some ⟨none, none, some "disabled", "Add to Cart"⟩ := by decide
      rw [he] at hb
      cases hb
      decide)

/-- The markup refuting claim C5: a disabled `Add to Cart` button followed
by an enabled one. -/
def c5CexMarkup : Markup :=
  [⟨none, none, some "disabled", "Add to Cart"⟩, ⟨none, none, none, "Add to Cart"⟩]

/-- Claim C5 is false as stated: neither the primary nor either out-of-stock
pattern matches this markup, and it contains an `Add to Cart` button with no
disabled attribute, yet the classifier does not return in-stock-fallback —
`find` returns the FIRST `Add to Cart` button, here the disabled one, so the
verdict is unknown. -/
theorem claim_C5_counterexample :
    primaryMatches c5CexMarkup = false
    ∧ findOOSClass c5CexMarkup = none
    ∧ findUnavailable c5CexMarkup = none
    ∧ (c5CexMarkup.any fun b => b.innerText == "Add to Cart" && b.disabledAttr == none) = true
    ∧ classify c5CexMarkup ≠ (true, Reason.inStockFallback)
    ∧ classify c5CexMarkup = (false, Reason.unknown) := by
  decide

/-- Claim C5 (amended): for every markup in which neither the primary
pattern nor either out-of-stock pattern matches, if the FIRST button with
text exactly `Add to Cart` lacks a disabled attribute, the classifier
returns in-stock with reason in-stock-fallback. -/
theorem claim_C5 (m : Markup) (b : Button)
    (h1 : primaryMatches m = false)
    (h2 : findOOSClass m = none) (h3 : findUnavailable m = none)
    (h4 : findFallbackCart m = some b) (h5 : b.disabledAttr = none) :
    classify m = (true, Reason.inStockFallback) := by
  simp [classify, h1, h2, h3, h4, disabledFalsy, h5]

/-- Witness for claim C5 at a single plain enabled `Add to Cart` button. -/
theorem claim_C5_witness :
    classify [(⟨none, none, none, "Add to Cart"⟩ : Button)]
      = (true, Reason.inStockFallback) :=
  claim_C5 _ ⟨none, none, none, "Add to Cart"⟩
    (by decide) (by decide) (by decide) (by decide) rfl

/-- The markup refuting claim C6: the out-of-stock button with both class
tokens and text `Unavailable`, but with `disabled="disabled"` instead of an
empty disabled value. -/
def c6CexMarkup : Markup :=
  [⟨some "add-to-cart-button--PZmQF disabled--vkECP", none, some "disabled", "Unavailable"⟩]

/-- Claim C6 is false as stated: the primary pattern does not match this
markup, which contains a button with the add-to-cart and disabled class
tokens and a present disabled attribute — and that same disabled button has
text exactly `Unavailable` — yet the classifier does not return
out-of-stock-primary: the filter `{'disabled': ''}` matches an absent
disabled attribute or one with the empty value, but rejects the non-empty
value `disabled` carried here. -/
theorem claim_C6_counterexample :
    primaryMatches c6CexMarkup = false
    ∧ (c6CexMarkup.any fun b =>
        classHasToken b "add-to-cart-button--PZmQF" && classHasToken b "disabled--vkECP"
          && b.disabledAttr.isSome) = true
    ∧ (c6CexMarkup.any fun b => b.disabledAttr.isSome && b.innerText == "Unavailable") = true
    ∧ classify c6CexMarkup ≠ (false, Reason.outOfStockPrimary)
    ∧ classify c6CexMarkup = (false, Reason.unknown) := by
  decide

/-- Claim C6 (amended): for every markup in which the primary pattern does
not match and which contains either a button whose class has both the
add-to-cart and disabled style tokens (as substrings) and whose disabled
attribute is absent or empty-valued, or any button whose disabled attribute
is absent or empty-valued and whose text is exactly `Unavailable`, the
classifier returns not-in-stock with reason out-of-stock-primary.  Only a
NON-EMPTY disabled value escapes both searches. -/
theorem claim_C6 (m : Markup)
    (h1 : primaryMatches m = false)
    (h2 : (∃ b ∈ m, oosClassBtn b = true) ∨ (∃ b ∈ m, unavailableBtn b = true)) :
    classify m = (false, Reason.outOfStockPrimary) := by
  have h2' : ((findOOSClass m).isSome || (findUnavailable m).isSome) = true := by
    rcases h2 with h | h
    · have : (findOOSClass m).isSome = true := by
        simpa [findOOSClass, List.find?_isSome] using h
      simp [this]
    · have : (findUnavailable m).isSome = true := by
        simpa [findUnavailable, List.find?_isSome] using h
      simp [this]
  simp [classify, h1, h2']

/-- Witness for claim C6 at the out-of-stock button of the code comment
(line 47), with an empty disabled value. -/
theorem claim_C6_witness :
    classify [(⟨some "add-to-cart-button--PZmQF btn--ICBoB btn-tertiary--_2uKVi disabled--vkECP",
               none, some "", "Unavailable"⟩ : Button)]
      = (false, Reason.outOfStockPrimary) :=
  claim_C6 _ (by decide)
    (Or.inl ⟨⟨some "add-to-cart-button--PZmQF btn--ICBoB btn-tertiary--_2uKVi disabled--vkECP",
              none, some "", "Unavailable"⟩, by decide, by decide⟩)

/-- Claim C7: for every message and every present, enabled notification
configuration, if the email send path fails for any reason, the failure is
caught inside `send_notification`, nothing is raised to the caller, no email
is sent, and the alert message is printed to the console. -/
theorem claim_C7 (message : String) (c : EmailConfig) (smtp : SmtpOutcome)
    (hen : c.enabled = true) (hf : smtp ≠ SmtpOutcome.ok) :
    send_notification message (some c) smtp = ⟨false, some message, false⟩ := by
  cases smtp with
  | ok => exact absurd rfl hf
  | authError => simp [send_notification, hen]
  | networkError => simp [send_notification, hen]
  | invalidPort => simp [send_notification, hen]
  | otherError => simp [send_notification, hen]

/-- Witness for claim C7: a configuration with an invalid port whose send
attempt fails falls back to the console without raising. -/
theorem claim_C7_witness :
    send_notification "🎉 Pokémon product is BACK IN STOCK!"
      (some ⟨"smtp.gmail.com", -1, "from@example.com", "pw", "to@example.com", true⟩)
      SmtpOutcome.invalidPort
      = ⟨false, some "🎉 Pokémon product is BACK IN STOCK!", false⟩ :=
  claim_C7 _ ⟨"smtp.gmail.com", -1, "from@example.com", "pw", "to@example.com", true⟩
    .invalidPort rfl (by decide)

/-- Claim C8 is false as stated: on a tick whose body parses with an
exception (status 200, so `raise_for_status` passes), the exception
propagates OUT of `check_stock` — only `requests.RequestException` is caught
there — and the loop's generic handler logs an unexpected error, not the
failed-check message; no notification is sent and polling continues after
the normal sleep. -/
theorem claim_C8_counterexample :
    check_stock (.success .raises 200) = .error ()
    ∧ monitorTick (.success .raises 200)
        = ⟨false, LogEvent.unexpectedError, true, LoopState.POLLING⟩
    ∧ (monitorTick (.success .raises 200)).log ≠ LogEvent.failedCheck :=
  ⟨rfl, by decide, by decide⟩

/-- Claim C8 (amended): for every tick in which parsing the fetched markup
raises an exception (and the status passed `raise_for_status`), the
exception escapes `check_stock` and is caught by the loop's generic
`except Exception` handler, which logs an unexpected error — distinct from
both a not-in-stock verdict and the failed-check message — does not invoke
the notifier, sleeps the normal interval, and keeps polling. -/
theorem claim_C8 (s : Nat) (h : raiseForStatus s = false) :
    check_stock (.success .raises s) = .error ()
    ∧ monitorTick (.success .raises s)
        = ⟨false, LogEvent.unexpectedError, true, LoopState.POLLING⟩ := by
  constructor
  · simp [check_stock, h]
  · simp [monitorTick, check_stock, h, monitorStep]

/-- Witness for claim C8 at a parse exception on a 200 response. -/
theorem claim_C8_witness :
    check_stock (.success .raises 200) = .error ()
    ∧ monitorTick (.success .raises 200)
        = ⟨false, LogEvent.unexpectedError, true, LoopState.POLLING⟩ :=
  claim_C8 200 rfl

/-- Claim C9: whenever `PRODUCT_URL` is absent from the environment,
`load_config` prints the guidance and returns a `None` URL, and `main`
returns without constructing the monitor or entering the polling loop. -/
theorem claim_C9 (e : Env) (h : e.product_url = none) :
    configUrl (load_config e) = none
    ∧ main e = ⟨true, false, false⟩ := by
  have hm : load_config e = ConfigResult.missing := by
    simp [load_config, h, truthyEnv]
  exact ⟨by simp [configUrl, hm], by simp [main, hm]⟩

/-- Witness for claim C9 at an empty environment. -/
theorem claim_C9_witness :
    configUrl (load_config ⟨none, none, none, none, none, none, none, none⟩) = none
    ∧ main ⟨none, none, none, none, none, none, none, none⟩ = ⟨true, false, false⟩ :=
  claim_C9 ⟨none, none, none, none, none, none, none, none⟩ rfl

/-- Claim C10: whenever `check_stock` returns a pair, the status component
is `None` exactly when the fetch raised a caught error, in which case the
in-stock flag is `False`; otherwise the status is the response's status
code.  The loop body maps a `None` status to the failed-check branch and a
(non-zero) status with a `False` flag to the still-out-of-stock branch, so
a failed check is distinguished from a not-in-stock verdict solely by the
`None` status. -/
theorem claim_C10 (f : FetchOutcome) (p : Bool × Option Nat)
    (h : check_stock f = .ok p) (s : Nat) (hs : s ≠ 0) (b : Bool) :
    (p.2 = none ↔ fetchRaised f = true)
    ∧ (p.2 = none → p.1 = false)
    ∧ (fetchRaised f = false → p.2 = statusOf f)
    ∧ monitorStep (.ok (b, none)) = ⟨false, LogEvent.failedCheck, true, LoopState.POLLING⟩
    ∧ monitorStep (.ok (false, some s))
        = ⟨false, LogEvent.stillOutOfStock s, true, LoopState.POLLING⟩ := by
  refine ⟨?_, ?_, ?_, by simp [monitorStep], by simp [monitorStep, hs]⟩
  all_goals
    cases f with
    | success pp st =>
      by_cases hr : raiseForStatus st = true
      · simp [check_stock, hr] at h
        simp [← h, fetchRaised, hr]
      · cases pp with
        | ok m =>
          simp [check_stock, hr] at h
          simp [← h, fetchRaised, hr, statusOf]
        | raises => simp [check_stock, hr] at h
    | timeout =>
      simp [check_stock] at h
      simp [← h, fetchRaised]
    | connectionError =>
      simp [check_stock] at h
      simp [← h, fetchRaised]

/-- Witness for claim C10 at a timed-out fetch. -/
theorem claim_C10_witness :
    (((false, none) : Bool × Option Nat).2 = none ↔ fetchRaised FetchOutcome.timeout = true)
    ∧ (((false, none) : Bool × Option Nat).2 = none
        → ((false, none) : Bool × Option Nat).1 = false)
    ∧ (fetchRaised FetchOutcome.timeout = false
        → ((false, none) : Bool × Option Nat).2 = statusOf FetchOutcome.timeout)
    ∧ monitorStep (.ok (true, none)) = ⟨false, LogEvent.failedCheck, true, LoopState.POLLING⟩
    ∧ monitorStep (.ok (false, some 200))
        = ⟨false, LogEvent.stillOutOfStock 200, true, LoopState.POLLING⟩ :=
  claim_C10 .timeout (false, none) rfl 200 (by decide) true

end StockMonitor
